import Mathlib

/-
Verification development for the AUGV multi-agent streaming pipeline
(webapp/model/yolo_augv.py, webapp/asgi_app.py, HTTP/webapp/agent_stream.py).

The Python source works with IEEE floats; the embedding uses exact rationals.
Trigonometric values of the fixed camera angles are embedded as rational
constants (tan 45 degrees is exactly 1; cos and sin of 20 degrees as 8-digit
rational approximations), and the comparison `sqrt (x^2 + z^2) <= c` from the
distance-bias selection is embedded as `x^2 + z^2 <= c^2`, which is equivalent
over the reals for nonnegative `c`.
-/

namespace AUGV

/-! ### Camera parameters (yolo_augv.py, lines 15-22) -/

def CAMERA_HEIGHT : ℚ := 3/5

def CAMERA_FORWARD : ℚ := 31/100

def NODE_CENTER : ℚ := 1/2

def GRID_SIZE : ℚ := 1

/-- tan(FOV/2) with the fixed vertical FOV of 90 degrees: tan 45° = 1 exactly. -/
def tanHalfFov : ℚ := 1

/-- Rational stand-in for cos 20° (the fixed downward camera tilt CAMERA_ROT_X). -/
def cosRotX : ℚ := 93969262 / 100000000

/-- Rational stand-in for sin 20° (the fixed downward camera tilt CAMERA_ROT_X). -/
def sinRotX : ℚ := 34202014 / 100000000

/-! ### Geometry projector (yolo_augv.py, `image_to_agent_grid_offset`, lines 45-90)

Each definition below mirrors one line of the source function. -/

/-- `x_ndc = (x_img / img_w - 0.5) * 2` -/
def xNdc (x_img img_w : ℚ) : ℚ := (x_img / img_w - 1/2) * 2

/-- `y_ndc = (y_img / img_h - 0.5) * 2` -/
def yNdc (y_img img_h : ℚ) : ℚ := (y_img / img_h - 1/2) * 2

/-- `x_cam = x_ndc * tan_fov * aspect` with `aspect = img_w / img_h` -/
def xCam (x_img img_w img_h : ℚ) : ℚ := xNdc x_img img_w * tanHalfFov * (img_w / img_h)

/-- `y_cam = -y_ndc * tan_fov` -/
def yCam (y_img img_h : ℚ) : ℚ := -(yNdc y_img img_h) * tanHalfFov

/-- `y_rot = y_cam * cos(rot_x) - z_cam * sin(rot_x)` with `z_cam = 1` -/
def yRot (y_img img_h : ℚ) : ℚ := yCam y_img img_h * cosRotX - 1 * sinRotX

/-- `z_rot = y_cam * sin(rot_x) + z_cam * cos(rot_x)` with `z_cam = 1` -/
def zRot (y_img img_h : ℚ) : ℚ := yCam y_img img_h * sinRotX + 1 * cosRotX

/-- `cam_z = NODE_CENTER + CAMERA_FORWARD` -/
def camZ : ℚ := NODE_CENTER + CAMERA_FORWARD

/-- `t = -cam_y / y_rot if y_rot != 0 else 0` -/
def tRay (y_img img_h : ℚ) : ℚ :=
  if yRot y_img img_h ≠ 0 then -CAMERA_HEIGHT / yRot y_img img_h else 0

/-- `world_x = x_cam * t` -/
def worldX (x_img y_img img_w img_h : ℚ) : ℚ := xCam x_img img_w img_h * tRay y_img img_h

/-- `world_z = cam_z + z_rot * t` -/
def worldZ (y_img img_h : ℚ) : ℚ := camZ + zRot y_img img_h * tRay y_img img_h

/-- `distance**2 = world_x**2 + world_z**2`; the source compares
`distance = sqrt(world_x**2 + world_z**2)` against 2, 4, 6, so here the
squared distance is compared against 4, 16, 36. -/
def distSq (x_img y_img img_w img_h : ℚ) : ℚ :=
  worldX x_img y_img img_w img_h ^ 2 + worldZ y_img img_h ^ 2

/-- Distance-based bias selection (yolo_augv.py lines 73-85), on the squared
distance: `distance <= 2.0 -> 0.2`, `<= 4.0 -> 0.5`, `<= 6.0 -> 0.8`,
else `1.2`. -/
def biasOf (d2 : ℚ) : ℚ :=
  if d2 ≤ 2^2 then 2/10 else if d2 ≤ 4^2 then 5/10 else if d2 ≤ 6^2 then 8/10 else 12/10

/-- Embedding of `image_to_agent_grid_offset(x_img, y_img, img_w, img_h, bbox_h)`:
`dy = int(round((world_z + bias) / GRID_SIZE))`, `dx = int(round(world_x / GRID_SIZE))`,
returned as `(dx, dy)`.  The `bbox_h` parameter is carried exactly as in the
source signature (where it is never read in the body). -/
def image_to_agent_grid_offset (x_img y_img img_w img_h bbox_h : ℚ) : ℤ × ℤ :=
  (round (worldX x_img y_img img_w img_h / GRID_SIZE),
   round ((worldZ y_img img_h + biasOf (distSq x_img y_img img_w img_h)) / GRID_SIZE))

/-- Modelled from the spec (section 4.2 step 5): distance ≤ 2 → bias 0.2;
≤ 4 → 0.5; ≤ 6 → 0.8; else → 1.2 — stated on the squared distance, since
`distance ≤ c ↔ distance² ≤ c²` for nonnegative `c`. -/
def specBias (d2 : ℚ) : ℚ :=
  if d2 ≤ 4 then 1/5 else if d2 ≤ 16 then 1/2 else if d2 ≤ 36 then 4/5 else 6/5

/-! ### Per-frame detection processing (yolo_augv.py, run loop lines 126-138) -/

/-- Python `round(q, k)`: rounding to `k` decimal places, used by the source for
the reported confidence (`round(conf, 3)`) and bbox values (`round(v, 2)`). -/
def roundTo (q : ℚ) (k : ℕ) : ℚ := (round (q * 10^k) : ℚ) / 10^k

/-- One YOLO box as consumed by the loop: class label resolved via
`model.names[int(box.cls[0])]`, confidence `float(box.conf[0])`, and the
center-format bounding box `x, y, w, h = box.xywh[0].tolist()`. -/
structure Box where
  label : String
  conf : ℚ
  x : ℚ
  y : ℚ
  w : ℚ
  h : ℚ
deriving DecidableEq

/-- One entry of the per-frame `detections` list (yolo_augv.py line 138). -/
structure Detection where
  label : String
  confidence : ℚ
  bbox : List ℚ
  feet : ℚ × ℚ
  offset : ℤ × ℤ
deriving DecidableEq

/-- Body of the `for box in results.boxes` loop (yolo_augv.py lines 128-138):
skip non-person labels; feet point `(x, y + h/2)`; project to `(dx, dy)`;
`blocked_offsets.add((dx, dy) if dy > 0 and dy <= 5 else None)`; append the
detection record. -/
def processBox (img_w img_h : ℚ) (acc : List Detection × Finset (Option (ℤ × ℤ)))
    (b : Box) : List Detection × Finset (Option (ℤ × ℤ)) :=
  if b.label ≠ "person" then acc
  else
    let feet_x := b.x
    let feet_y := b.y + b.h / 2
    let off := image_to_agent_grid_offset feet_x feet_y img_w img_h b.h
    (acc.1 ++ [⟨b.label, roundTo b.conf 3,
               [roundTo b.x 2, roundTo b.y 2, roundTo b.w 2, roundTo b.h 2],
               (feet_x, feet_y), off⟩],
     insert (if 0 < off.2 ∧ off.2 ≤ 5 then some off else none) acc.2)

/-- The whole detection loop: starts from an empty `detections` list and an
empty `blocked_offsets` set each frame. -/
def processBoxes (img_w img_h : ℚ) (boxes : List Box) :
    List Detection × Finset (Option (ℤ × ℤ)) :=
  boxes.foldl (processBox img_w img_h) ([], ∅)

/-! ### Agent state and the worker loop (yolo_augv.py lines 99, 110-164) -/

/-- The `agent_state[agent_id]` dict: `waiting` initially, a processed record
(status blocked/safe plus detections and blocked offsets) after a good frame,
or an error record after a raised exception. -/
inductive AgentState where
  | waiting
  | processed (blocked_offsets : Finset (Option (ℤ × ℤ))) (dets : List Detection)
  | error (msg : String)
deriving DecidableEq

/-- The `status` string stored in the dict:
`'blocked' if blocked_offsets else 'safe'` for a processed frame. -/
def AgentState.statusString : AgentState → String
  | .waiting => "waiting"
  | .processed b _ => if b ≠ ∅ then "blocked" else "safe"
  | .error _ => "error"

/-- The `detections` list stored in the dict (absent entries read as empty). -/
def AgentState.detections : AgentState → List Detection
  | .processed _ d => d
  | _ => []

/-- Outcome of processing one frame: either the loop body ran to completion
with its detections and blocked-offsets set, or it raised with a message. -/
inductive FrameResult where
  | success (dets : List Detection) (blocked_offsets : Finset (Option (ℤ × ℤ)))
  | failure (msg : String)

/-- Effect of one while-loop iteration on `agent_state[agent_id]`: the record
is replaced wholesale (lines 157-162 on success, line 164 on exception). -/
def stepState : AgentState → FrameResult → AgentState
  | _, .success dets blocked => .processed blocked dets
  | _, .failure msg => .error msg

/-- The worker's loop over a sequence of frame outcomes. -/
def runWorker (s : AgentState) (frames : List FrameResult) : AgentState :=
  frames.foldl stepState s

/-- The successful frame outcome produced by the detection loop. -/
def frameResultOf (img_w img_h : ℚ) (boxes : List Box) : FrameResult :=
  .success (processBoxes img_w img_h boxes).1 (processBoxes img_w img_h boxes).2

/-! ### Debounced control notification (yolo_augv.py lines 100-101, 149-156) -/

/-- `self.last_send_time` and `self.last_sent_offsets`. -/
structure SendState where
  last_send_time : ℚ
  last_sent_offsets : Finset (Option (ℤ × ℤ))
deriving DecidableEq

/-- The send decision of lines 149-156: send when
`blocked_offsets and (now - last_send_time >= 0.5 or blocked_offsets != last_sent_offsets)`,
in which case both fields are updated; otherwise the state is unchanged.
Returns (sent?, new state). -/
def debounceStep (st : SendState) (now : ℚ) (blocked : Finset (Option (ℤ × ℤ))) :
    Bool × SendState :=
  if blocked ≠ ∅ ∧ (now - st.last_send_time ≥ 1/2 ∨ blocked ≠ st.last_sent_offsets)
  then (true, ⟨now, blocked⟩)
  else (false, st)

/-- Number of Unity notifications over a sequence of frames, each given as
(arrival time `now`, that frame's `blocked_offsets`). -/
def sendCount (st : SendState) : List (ℚ × Finset (Option (ℤ × ℤ))) → ℕ
  | [] => 0
  | f :: fs =>
      (if (debounceStep st f.1 f.2).1 then 1 else 0) +
        sendCount (debounceStep st f.1 f.2).2 fs

/-! ### Single-slot inbox (yolo_augv.py line 97, asgi_app.py lines 42-43) -/

/-- The ingestion path for one decoded frame (`none` models a failed decode):
`if frame is not None and not agent_queues[agent_id].full(): put_nowait(frame)`.
The slot is the `queue.Queue(maxsize=1)`; it accepts the frame only when empty. -/
def offerFrame (slot : Option ℕ) (frame : Option ℕ) : Option ℕ :=
  if frame ≠ none ∧ slot = none then frame else slot

/-- The worker's `self.q.get()`: observes the slot content and empties it. -/
def drainInbox (slot : Option ℕ) : Option ℕ × Option ℕ := (slot, none)

/-! ### Monitor broadcast (asgi_app.py lines 55-60) -/

/-- One broadcast of a payload to the subscriber set: all sends are attempted
(`asyncio.gather` with `return_exceptions=True`), then every subscriber whose
send raised is discarded. Returns (subscribers that received the payload,
subscriber set after the discards). -/
def broadcastSend (subs : Finset ℕ) (sendOk : ℕ → Bool) : Finset ℕ × Finset ℕ :=
  (subs.filter (fun c => sendOk c = true),
   subs \ subs.filter (fun c => sendOk c = false))

/-! ### Agent frame store (HTTP/webapp/agent_stream.py lines 7-29) -/

/-- `AgentFrameStore`: the `frames` dict (latest frame bytes per agent, bytes
modelled as ℕ) and the `agent_last_seen` dict, as association lists with
unique keys. -/
structure AgentFrameStore where
  frames : List (String × ℕ)
  agent_last_seen : List (String × ℚ)

/-- Python dict assignment `d[k] = v`: replace the value if the key exists,
append otherwise. -/
def dictSet {β : Type} (l : List (String × β)) (k : String) (v : β) :
    List (String × β) :=
  if l.any (fun p => p.1 == k) then l.map (fun p => if p.1 = k then (k, v) else p)
  else l ++ [(k, v)]

/-- `set_frame`: stores the frame and stamps `agent_last_seen[agent_id] = time.time()`. -/
def AgentFrameStore.set_frame (s : AgentFrameStore) (agent_id : String)
    (frame : ℕ) (now : ℚ) : AgentFrameStore :=
  ⟨dictSet s.frames agent_id frame, dictSet s.agent_last_seen agent_id now⟩

/-- `get_frame`: `self.frames.get(agent_id)` — `none` when absent, never an error. -/
def AgentFrameStore.get_frame (s : AgentFrameStore) (agent_id : String) : Option ℕ :=
  s.frames.lookup agent_id

/-- `get_agents`: only agents seen in the last 10 seconds
(`[aid for aid, ts in agent_last_seen.items() if now - ts < 10]`). -/
def AgentFrameStore.get_agents (s : AgentFrameStore) (now : ℚ) : List String :=
  (s.agent_last_seen.filter (fun p => decide (now - p.2 < 10))).map Prod.fst

/-! ### Helper lemmas -/

/-- The projection evaluated at the feet pixel (320, 168) of a 640×480 frame:
the ray points just below the horizon, the ground hit is about 11.2 m ahead,
so the bucketed offset is (0, 12). -/
theorem offset_at_demo_feet : image_to_agent_grid_offset 320 168 640 480 30 = (0, 12) := by
  have h1 : yRot 168 480 = -30056177/500000000 := by
    norm_num [yRot, yCam, yNdc, tanHalfFov, cosRotX, sinRotX]
  have h2 : zRot 168 480 = 521149331/500000000 := by
    norm_num [zRot, yCam, yNdc, tanHalfFov, cosRotX, sinRotX]
  have h3 : tRay 168 480 = 300000000/30056177 := by
    rw [tRay, if_pos (by rw [h1]; norm_num), h1, CAMERA_HEIGHT]
    norm_num
  have h4 : worldX 320 168 640 480 = 0 := by
    norm_num [worldX, xCam, xNdc, tanHalfFov, h3]
  have h5 : worldZ 168 480 = 33703510197/3005617700 := by
    rw [worldZ, camZ, h2, h3, NODE_CENTER, CAMERA_FORWARD]
    norm_num
  have h6 : distSq 320 168 640 480 = 1135926599599282978809/9033737758553290000 := by
    rw [distSq, h4, h5]; norm_num
  have h7 : biasOf (distSq 320 168 640 480) = 12/10 := by
    rw [biasOf, h6]; norm_num
  rw [image_to_agent_grid_offset, h4, h5, h7, GRID_SIZE]
  norm_num [round_eq]

/-- When the tilt-rotated ray has zero vertical component the source sets the
ray parameter `t` to 0, so the ground point degenerates to
`(0, cam_z) = (0, 0.81)`; with bias 0.2 the returned offset is `(0, 1)`. -/
theorem offset_of_yRot_eq_zero (x_img y_img img_w img_h bbox_h : ℚ)
    (h : yRot y_img img_h = 0) :
    image_to_agent_grid_offset x_img y_img img_w img_h bbox_h = (0, 1) := by
  have ht : tRay y_img img_h = 0 := by
    rw [tRay, if_neg]
    simp [h]
  have hx : worldX x_img y_img img_w img_h = 0 := by
    rw [worldX, ht, mul_zero]
  have hz : worldZ y_img img_h = 81/100 := by
    rw [worldZ, ht, mul_zero, add_zero, camZ, NODE_CENTER, CAMERA_FORWARD]
    norm_num
  have hb : biasOf (distSq x_img y_img img_w img_h) = 2/10 := by
    rw [biasOf, distSq, hx, hz]
    norm_num
  rw [image_to_agent_grid_offset, hx, hz, hb, GRID_SIZE]
  norm_num [round_eq]

/-! ### Claims -/

/-- C9: the geometry projection is deterministic and its result does not depend
on the `bbox_h` argument: two calls to `image_to_agent_grid_offset` with the
same `x_img, y_img, img_w, img_h` and any two values of `bbox_h` return equal
`(dx, dy)` pairs. -/
theorem image_to_agent_grid_offset_bbox_h_irrelevant
    (x_img y_img img_w img_h b₁ b₂ : ℚ) :
    image_to_agent_grid_offset x_img y_img img_w img_h b₁ =
      image_to_agent_grid_offset x_img y_img img_w img_h b₂ := rfl

/-- C5: for every input, the projection returns
`(round (world_x / grid_size), round ((world_z + bias) / grid_size))` where the
bias is the distance-dependent value of the spec (0.2 for distance ≤ 2, 0.5 for
≤ 4, 0.8 for ≤ 6, else 1.2, stated on the squared distance), and the grid size
is 1.0. -/
theorem image_to_agent_grid_offset_spec (x_img y_img img_w img_h bbox_h : ℚ) :
    image_to_agent_grid_offset x_img y_img img_w img_h bbox_h =
      (round (worldX x_img y_img img_w img_h / GRID_SIZE),
       round ((worldZ y_img img_h + specBias (distSq x_img y_img img_w img_h)) /
         GRID_SIZE)) ∧
      GRID_SIZE = 1 := by
  constructor
  · have h : biasOf (distSq x_img y_img img_w img_h) =
        specBias (distSq x_img y_img img_w img_h) := by
      rw [biasOf, specBias]
      norm_num
    rw [image_to_agent_grid_offset, h]
  · rfl

/-- C4 is false as stated: at this concrete input (image height 93969262,
feet row 29883624, horizontal center) the tilt-rotated ray has exactly zero
vertical component, yet the projection returns (0, 1), not the claimed (0, 0). -/
theorem parallel_ray_not_zero_zero :
    yRot 29883624 93969262 = 0 ∧
      image_to_agent_grid_offset 320 29883624 640 93969262 0 ≠ (0, 0) := by
  have h : yRot 29883624 93969262 = 0 := by
    norm_num [yRot, yCam, yNdc, tanHalfFov, cosRotX, sinRotX]
  refine ⟨h, ?_⟩
  rw [offset_of_yRot_eq_zero 320 29883624 640 93969262 0 h]
  decide

/-- C4 (amended): for every input where the tilt-rotated camera ray has zero
vertical component, the projection returns (0, 1) as the degenerate fallback:
the source sets the ray parameter to 0, which lands on (0, cam_z) = (0, 0.81)
and buckets, after the 0.2 close-range bias, to dy = round 1.01 = 1. -/
theorem parallel_ray_fallback (x_img y_img img_w img_h bbox_h : ℚ)
    (h : yRot y_img img_h = 0) :
    image_to_agent_grid_offset x_img y_img img_w img_h bbox_h = (0, 1) :=
  offset_of_yRot_eq_zero x_img y_img img_w img_h bbox_h h

/-- Witness for the amended C4 at a concrete degenerate input. -/
theorem parallel_ray_fallback_witness :
    image_to_agent_grid_offset 0 29883624 640 93969262 5 = (0, 1) :=
  parallel_ray_fallback 0 29883624 640 93969262 5
    (by norm_num [yRot, yCam, yNdc, tanHalfFov, cosRotX, sinRotX])

/-- C1 is false as stated: submitting frames 1 then 2 before the worker drains
the inbox leaves frame 1 in the slot — the worker observes the first frame,
not the second. -/
theorem inbox_keeps_first_frame :
    offerFrame (offerFrame none (some 1)) (some 2) = some 1 ∧
      (drainInbox (offerFrame (offerFrame none (some 1)) (some 2))).1 ≠ some 2 := by
  decide

/-- C1 (amended): the inbox has capacity one with a drop-newest policy: when two
frames are submitted before the worker drains the first, the worker observes the
first frame and the second is dropped; in general an offered frame either leaves
an occupied slot unchanged or fills an empty slot — never are both queued. -/
theorem inbox_drop_newest (f₁ f₂ : ℕ) :
    offerFrame (offerFrame none (some f₁)) (some f₂) = some f₁ ∧
      (∀ slot frame, offerFrame slot frame = slot ∨
        (slot = none ∧ offerFrame slot frame = frame)) := by
  constructor
  · simp [offerFrame]
  · intro slot frame
    by_cases h : frame ≠ none ∧ slot = none
    · exact Or.inr ⟨h.2, by rw [offerFrame, if_pos h]⟩
    · exact Or.inl (by rw [offerFrame, if_neg h])

/-- A person box whose feet pixel (320, 168) in a 640×480 frame projects to the
out-of-band offset (0, 12). -/
def oobBox : Box := ⟨"person", 9/10, 320, 153, 20, 30⟩

/-- C2: the code violates the claim. For a person detection whose projected
offset has dy = 12 (outside the accepted band 0 < dy ≤ 5) the loop executes
`blocked_offsets.add(None)`, so the per-frame set contains a non-pair `None`
placeholder — which also makes the set non-empty and drives the status to
blocked. -/
theorem blocked_offsets_contains_none :
    5 < (image_to_agent_grid_offset 320 168 640 480 30).2 ∧
      none ∈ (processBoxes 640 480 [oobBox]).2 := by
  have hfeet : (153 : ℚ) + 30 / 2 = 168 := by norm_num
  have hoff : image_to_agent_grid_offset 320 (153 + 30 / 2) 640 480 30 = (0, 12) := by
    rw [hfeet]; exact offset_at_demo_feet
  constructor
  · rw [offset_at_demo_feet]; decide
  · show none ∈ (processBox 640 480 ([], ∅) oobBox).2
    rw [processBox]
    simp only [oobBox, hoff]
    norm_num

/-! C3: debounce of the control notifier. -/

/-- After a send at time t₀ of the set S, frames whose set is still S and whose
times are within half a second of t₀ trigger no further send and leave the send
state unchanged. -/
theorem sendCount_unchanged_after_send (frames : List (ℚ × Finset (Option (ℤ × ℤ))))
    (t₀ : ℚ) (S : Finset (Option (ℤ × ℤ)))
    (hS : ∀ fr ∈ frames, fr.2 = S) (ht : ∀ fr ∈ frames, fr.1 - t₀ < 1/2) :
    sendCount ⟨t₀, S⟩ frames = 0 := by
  induction frames with
  | nil => rfl
  | cons f fs ih =>
      have hf2 : f.2 = S := hS f (List.mem_cons_self f fs)
      have hf1 : f.1 - t₀ < 1/2 := ht f (List.mem_cons_self f fs)
      have hstep : debounceStep ⟨t₀, S⟩ f.1 f.2 = (false, ⟨t₀, S⟩) := by
        rw [debounceStep, if_neg]
        rintro ⟨-, h2 | h3⟩
        · exact absurd h2 (not_le.mpr hf1)
        · exact h3 hf2
      simp only [sendCount, hstep, Bool.false_eq_true, if_false, zero_add]
      exact ih (fun fr h => hS fr (List.mem_cons_of_mem f h))
        (fun fr h => ht fr (List.mem_cons_of_mem f h))

/-- C3: (a) a control notification for a frame is sent only when that frame's
blocked-offsets set is non-empty and either at least 0.5 s elapsed since the
last send or the set differs from the last sent one; (b) debounce law: over any
run of consecutive frames carrying one unchanged set, all lying within half a
second of one another, the notifier fires at most once, regardless of how many
frames there are. -/
theorem control_notifier_debounce :
    (∀ (st : SendState) (now : ℚ) (blocked : Finset (Option (ℤ × ℤ))),
        (debounceStep st now blocked).1 = true →
        blocked ≠ ∅ ∧
          (now - st.last_send_time ≥ 1/2 ∨ blocked ≠ st.last_sent_offsets)) ∧
      (∀ (frames : List (ℚ × Finset (Option (ℤ × ℤ)))) (st : SendState)
          (S : Finset (Option (ℤ × ℤ))),
        (∀ fr ∈ frames, fr.2 = S) →
        (∀ fr ∈ frames, ∀ fr' ∈ frames, fr.1 - fr'.1 < 1/2) →
        sendCount st frames ≤ 1) := by
  constructor
  · intro st now blocked h
    by_cases hc : blocked ≠ ∅ ∧
        (now - st.last_send_time ≥ 1/2 ∨ blocked ≠ st.last_sent_offsets)
    · exact hc
    · rw [debounceStep, if_neg hc] at h
      exact absurd h (by simp)
  · intro frames
    induction frames with
    | nil => intro st S hS hpair; simp [sendCount]
    | cons f fs ih =>
        intro st S hS hpair
        by_cases hc : f.2 ≠ ∅ ∧
            (f.1 - st.last_send_time ≥ 1/2 ∨ f.2 ≠ st.last_sent_offsets)
        · have hstep : debounceStep st f.1 f.2 = (true, ⟨f.1, f.2⟩) := by
            rw [debounceStep, if_pos hc]
          have hf2 : f.2 = S := hS f (List.mem_cons_self f fs)
          have hzero : sendCount ⟨f.1, f.2⟩ fs = 0 := by
            rw [hf2]
            exact sendCount_unchanged_after_send fs f.1 S
              (fun fr h => hS fr (List.mem_cons_of_mem f h))
              (fun fr h => hpair fr (List.mem_cons_of_mem f h) f
                (List.mem_cons_self f fs))
          simp [sendCount, hstep, hzero]
        · have hstep : debounceStep st f.1 f.2 = (false, st) := by
            rw [debounceStep, if_neg hc]
          simp only [sendCount, hstep, if_neg Bool.false_ne_true, zero_add]
          exact ih st S (fun fr h => hS fr (List.mem_cons_of_mem f h))
            (fun fr h fr' h' => hpair fr (List.mem_cons_of_mem f h) fr'
              (List.mem_cons_of_mem f h'))

/-- Three frames carrying the same one-element blocked set, arriving at times
0, 0.25 and 0.4 — all within the 0.5 s minimum interval. -/
def demoFrames : List (ℚ × Finset (Option (ℤ × ℤ))) :=
  [(0, {some (0, 1)}), (1/4, {some (0, 1)}), (2/5, {some (0, 1)})]

/-- Witness for C3 at the concrete frame sequence: at most one send, and the
send condition instantiated at the first frame. -/
theorem control_notifier_debounce_witness :
    sendCount ⟨0, ∅⟩ demoFrames ≤ 1 ∧
      (({some (0, 1)} : Finset (Option (ℤ × ℤ))) ≠ ∅ ∧
        ((0 : ℚ) - (SendState.mk 0 ∅).last_send_time ≥ 1/2 ∨
          ({some (0, 1)} : Finset (Option (ℤ × ℤ))) ≠
            (SendState.mk 0 ∅).last_sent_offsets)) := by
  constructor
  · exact control_notifier_debounce.2 demoFrames ⟨0, ∅⟩ {some (0, 1)}
      (by intro fr h; fin_cases h <;> rfl)
      (by intro fr h fr' h'; fin_cases h <;> fin_cases h' <;> norm_num)
  · exact control_notifier_debounce.1 ⟨0, ∅⟩ 0 {some (0, 1)}
      (by rw [debounceStep, if_pos]; exact ⟨by simp, Or.inr (by simp)⟩)

/-- C6: a frame whose processing raises sets the agent's status to error with
the failure message, and the worker continues: the whole run equals resuming
the loop from the error state, a run ending at the failure shows status
"error", and a subsequent successful frame overwrites the error — the failure
is per-frame, never fatal to the worker. -/
theorem worker_survives_frame_failure (s : AgentState) (pre post : List FrameResult)
    (msg : String) (dets : List Detection) (blocked : Finset (Option (ℤ × ℤ))) :
    runWorker s (pre ++ FrameResult.failure msg :: post) =
        runWorker (AgentState.error msg) post ∧
      runWorker s (pre ++ [FrameResult.failure msg]) = AgentState.error msg ∧
      (runWorker s (pre ++ [FrameResult.failure msg])).statusString = "error" ∧
      runWorker s (pre ++ [FrameResult.failure msg, FrameResult.success dets blocked]) =
        AgentState.processed blocked dets := by
  refine ⟨?_, ?_, ?_, ?_⟩ <;>
    simp [runWorker, List.foldl_append, stepState, AgentState.statusString]

/-- C7: when one subscriber's send fails during a broadcast, every other current
subscriber still receives the payload, and exactly the failing subscriber is
removed from the subscriber set. -/
theorem broadcast_isolation (subs : Finset ℕ) (sendOk : ℕ → Bool) (bad : ℕ)
    (hbad : bad ∈ subs) (hfail : ∀ c ∈ subs, sendOk c = false ↔ c = bad) :
    (broadcastSend subs sendOk).1 = subs.erase bad ∧
      (broadcastSend subs sendOk).2 = subs.erase bad ∧
      bad ∉ (broadcastSend subs sendOk).2 := by
  have h1 : (broadcastSend subs sendOk).1 = subs.erase bad := by
    ext c
    simp only [broadcastSend, Finset.mem_filter, Finset.mem_erase]
    constructor
    · rintro ⟨hc, hok⟩
      refine ⟨fun heq => ?_, hc⟩
      rw [(hfail c hc).mpr heq] at hok
      exact Bool.false_ne_true hok
    · rintro ⟨hne, hc⟩
      refine ⟨hc, ?_⟩
      cases hok : sendOk c
      · exact absurd ((hfail c hc).mp hok) hne
      · rfl
  have h2 : (broadcastSend subs sendOk).2 = subs.erase bad := by
    ext c
    simp only [broadcastSend, Finset.mem_sdiff, Finset.mem_filter, Finset.mem_erase]
    constructor
    · rintro ⟨hc, hnot⟩
      refine ⟨fun heq => ?_, hc⟩
      exact hnot ⟨hc, (hfail c hc).mpr heq⟩
    · rintro ⟨hne, hc⟩
      refine ⟨hc, fun hmem => hne ((hfail c hc).mp hmem.2)⟩
  exact ⟨h1, h2, h2 ▸ Finset.not_mem_erase bad subs⟩

/-- Witness for C7: subscribers 1, 2, 3 where the send to 2 fails — 1 and 3
receive the payload and exactly 2 is removed. -/
theorem broadcast_isolation_witness :
    (broadcastSend {1, 2, 3} (fun c => decide (c ≠ 2))).1 =
        ({1, 2, 3} : Finset ℕ).erase 2 ∧
      (broadcastSend {1, 2, 3} (fun c => decide (c ≠ 2))).2 =
        ({1, 2, 3} : Finset ℕ).erase 2 ∧
      2 ∉ (broadcastSend {1, 2, 3} (fun c => decide (c ≠ 2))).2 :=
  broadcast_isolation {1, 2, 3} (fun c => decide (c ≠ 2)) 2 (by decide) (by decide)

/-! C8: stale agents are excluded from the active listing but stay queryable. -/

/-- In an association list with no duplicate keys, every member is what lookup
finds for its key. -/
theorem lookup_eq_of_nodup {β : Type} (l : List (String × β)) (k : String) (v : β)
    (hnd : (l.map Prod.fst).Nodup) (hmem : (k, v) ∈ l) : l.lookup k = some v := by
  induction l with
  | nil => cases hmem
  | cons p ps ih =>
      obtain ⟨k', v'⟩ := p
      rw [List.map_cons, List.nodup_cons] at hnd
      rw [List.mem_cons] at hmem
      rcases hmem with h | h
      · injection h with h1 h2
        subst h1
        subst h2
        simp [List.lookup]
      · have hk : (k == k') = false := by
          refine beq_eq_false_iff_ne.mpr fun heq => hnd.1 ?_
          exact List.mem_map.mpr ⟨(k, v), h, heq⟩
        simp only [List.lookup, hk]
        exact ih hnd.2 h

/-- C8: an agent whose last-seen stamp is at least the 10-second liveness
window old is excluded from the active-agents listing, yet its stored frame is
still returned by a lookup on its identifier — the record is not deleted. -/
theorem stale_agent_excluded_but_queryable (s : AgentFrameStore) (agent_id : String)
    (now ts : ℚ) (frame : ℕ)
    (hnd : (s.agent_last_seen.map Prod.fst).Nodup)
    (hts : (agent_id, ts) ∈ s.agent_last_seen)
    (hold : 10 ≤ now - ts)
    (hframe : s.frames.lookup agent_id = some frame) :
    agent_id ∉ s.get_agents now ∧ s.get_frame agent_id = some frame := by
  refine ⟨?_, hframe⟩
  intro hmem
  rw [AgentFrameStore.get_agents, List.mem_map] at hmem
  obtain ⟨p, hp, hpk⟩ := hmem
  rw [List.mem_filter] at hp
  obtain ⟨hpl, hplt⟩ := hp
  have hpmem : (agent_id, p.2) ∈ s.agent_last_seen := by
    have : p = (agent_id, p.2) := by
      obtain ⟨a, b⟩ := p
      simpa using hpk
    exact this ▸ hpl
  have h1 := lookup_eq_of_nodup s.agent_last_seen agent_id ts hnd hts
  have h2 := lookup_eq_of_nodup s.agent_last_seen agent_id p.2 hnd hpmem
  rw [h1] at h2
  have hts2 : ts = p.2 := by injection h2
  have hlt : now - p.2 < 10 := of_decide_eq_true hplt
  rw [← hts2] at hlt
  linarith

/-- A store holding one frame for agent A1, last seen at time 0. -/
def demoStore : AgentFrameStore := ⟨[("A1", 7)], [("A1", 0)]⟩

/-- Witness for C8: at time 20 agent A1 (last seen at 0) is not listed as
active, but its frame is still returned. -/
theorem stale_agent_witness :
    "A1" ∉ demoStore.get_agents 20 ∧ demoStore.get_frame "A1" = some 7 :=
  stale_agent_excluded_but_queryable demoStore "A1" 20 0 7 (by simp [demoStore])
    (by simp [demoStore]) (by norm_num) (by simp [demoStore, List.lookup])

/-! C10: only person-class detections are reported. -/

/-- The detection loop only ever appends records labelled person. -/
theorem processBoxes_labels_person (img_w img_h : ℚ) (boxes : List Box)
    (acc : List Detection × Finset (Option (ℤ × ℤ)))
    (hacc : ∀ d ∈ acc.1, d.label = "person") :
    ∀ d ∈ (boxes.foldl (processBox img_w img_h) acc).1, d.label = "person" := by
  induction boxes generalizing acc with
  | nil => exact hacc
  | cons b bs ih =>
      rw [List.foldl_cons]
      refine ih _ ?_
      intro d hd
      rw [processBox] at hd
      by_cases hb : b.label ≠ "person"
      · rw [if_pos hb] at hd
        exact hacc d hd
      · rw [if_neg hb] at hd
        simp only [List.mem_append, List.mem_singleton] at hd
        rcases hd with hd | rfl
        · exact hacc d hd
        · exact not_not.mp hb

/-- C10: after a processed frame, every element of the detections list stored
in the agent's state has label person — other classes are omitted from the
reported detections entirely, not merely excluded from blocking. -/
theorem stored_detections_all_person (s : AgentState) (img_w img_h : ℚ)
    (boxes : List Box) (d : Detection)
    (hd : d ∈ (stepState s (frameResultOf img_w img_h boxes)).detections) :
    d.label = "person" :=
  processBoxes_labels_person img_w img_h boxes ([], ∅) (by simp) d hd

/-- A frame containing one car box and one person box. -/
def demoBoxes : List Box := [⟨"car", 1/2, 100, 100, 10, 10⟩, oobBox]

/-- The single detection reported for demoBoxes. -/
def demoDetection : Detection := ⟨"person", 9/10, [320, 153, 20, 30], (320, 168), (0, 12)⟩

/-- Witness for C10: the one detection stored after processing demoBoxes is the
person record. -/
theorem stored_detections_all_person_witness : demoDetection.label = "person" :=
  stored_detections_all_person .waiting 640 480 demoBoxes demoDetection
    (by
      have hfeet : (153 : ℚ) + 30 / 2 = 168 := by norm_num
      show demoDetection ∈
        ((demoBoxes.foldl (processBox 640 480) ([], ∅)).1 : List Detection)
      simp only [demoBoxes, List.foldl_cons, List.foldl_nil]
      rw [processBox]
      rw [if_neg (by decide)]
      rw [processBox]
      rw [if_pos (by decide)]
      simp only [oobBox, demoDetection, roundTo, hfeet]
      norm_num [round_eq]
      exact offset_at_demo_feet.symm)

end AUGV
